import Mathlib

/-!
Verification of the Go snippets embedded in the blog articles of
tclaudel/blog-tclaudel: the Humble Object mock-MongoDB example
(mongo.go, mongo_mock.go and their tests) and the hexagonal
architecture user entity (internal/domain/entity/user.go).

Go errors are modelled by the inductive GoError: each errors.New
sentinel is a constructor, `fmt.Errorf("%w: %s", base, s)` becomes
`GoError.wrapped base s`, and errors from external libraries (the
mongo driver, uuid.Parse, mail.ParseAddress) are `GoError.external`
carrying their message. `errorsIs` mirrors errors.Is by unwrapping.
-/

namespace Mongo

/-- Model of primitive.ObjectID, kept abstract as its textual form. -/
structure ObjectID where
  hex : String
deriving DecidableEq, Repr

/-- Model of context.Context: an abstract token, since none of the
code under verification inspects the context. -/
structure Context where
  token : Nat
deriving DecidableEq, Repr

/-- Model of options.InsertOneOptions: an abstract token, since none
of the code under verification inspects the options. -/
structure InsertOneOptions where
  token : Nat
deriving DecidableEq, Repr

/-- The Go error values of the snippets: the errors.New sentinels of
mongo.go and entity/user.go as constructors, wrapping via
`fmt.Errorf` with the percent-w verb as `wrapped`, and errors coming
from outside libraries as `external` with their message. -/
inductive GoError where
  | errConnectingToMongoDatabase : GoError
  | errInsertingUser : GoError
  | errInvalidUserID : GoError
  | errInvalidEmail : GoError
  | errInvalidUsername : GoError
  | external (message : String) : GoError
  | wrapped (base : GoError) (message : String) : GoError
deriving DecidableEq, Repr

/-- The string produced by the Error method: the messages given to
errors.New, and for `fmt.Errorf` with format string percent-w, colon,
space, percent-s the base message followed by a colon, a space and the
wrapped text. -/
def GoError.msg : GoError → String
  | .errConnectingToMongoDatabase => "error connecting to mongo database"
  | .errInsertingUser => "error inserting user"
  | .errInvalidUserID => "invalid user id"
  | .errInvalidEmail => "invalid email"
  | .errInvalidUsername => "invalid username"
  | .external m => m
  | .wrapped base m => base.msg ++ ": " ++ m

/-- Model of errors.Is: the target matches the error itself or any
error reached by unwrapping. -/
def errorsIs : GoError → GoError → Bool
  | e, target =>
    e == target ||
      match e with
      | .wrapped base _ => errorsIs base target
      | _ => false

/-- The hay string contains the needle string somewhere inside, as a
contiguous run of its characters. -/
def strContains (hay needle : String) : Prop :=
  List.IsInfix needle.data hay.data

/-- The User struct of mongo.go with its four bson-tagged fields. -/
structure User where
  ID : ObjectID
  Name : String
  Email : String
  Password : String
deriving DecidableEq, Repr

/-- The dynamic value passed as the document argument of InsertOne,
whose Go type is the empty interface: either a pointer to a User, or
any value whose dynamic type is not a User pointer (a nil interface
included), carrying only a description since the code never looks
inside it. -/
inductive Document where
  | userPtr (u : User) : Document
  | other (descr : String) : Document
deriving DecidableEq, Repr

/-- Whether the type assertion of the document to a User pointer
succeeds. -/
def Document.isUser : Document → Bool
  | .userPtr _ => true
  | .other _ => false

/-- The sentinel email of mongo_mock.go that makes the mock fail. -/
def emailWitchTriggersError : String := "error@error.com"

/-- Whether the document has an Email field equal to the sentinel
email: only a User pointer has an Email field at all, so every other
document fails the test. -/
def docEmailIsSentinel : Document → Bool
  | .userPtr u => u.Email == emailWitchTriggersError
  | .other _ => false

/-- The mongo.InsertOneResult returned by InsertOne, holding the
inserted identifier. -/
structure InsertOneResult where
  InsertedID : ObjectID
deriving DecidableEq, Repr

/-- The MongoCaller interface of mongo.go: anything providing
InsertOne with the signature of the mongo driver collection. A Go
result pair of a nullable pointer and a nullable error becomes a pair
of options. -/
def MongoCaller : Type :=
  Context → Document → List InsertOneOptions → Option InsertOneResult × Option GoError

/-- The MockMongo empty struct of mongo_mock.go. -/
structure MockMongo where
deriving DecidableEq, Repr

/-- The InsertOne method of MockMongo: fail the type assertion and
return the canned error, fail on the sentinel email and return the
canned error, otherwise return a result carrying the ID of the user to
insert. -/
def MockMongo.InsertOne (_ : MockMongo) : MongoCaller := fun _ document _ =>
  match document with
  | .other _ => (none, some GoError.errInsertingUser)
  | .userPtr doc =>
    if doc.Email == emailWitchTriggersError then
      (none, some GoError.errInsertingUser)
    else
      (some { InsertedID := doc.ID }, none)

/-- The MongoRepo struct of mongo.go, holding its MongoCaller. -/
structure MongoRepo where
  mongoCaller : MongoCaller

/-- NewMockMongo builds a MongoRepo backed by the mock. -/
def NewMockMongo : MongoRepo :=
  { mongoCaller := MockMongo.InsertOne {} }

/-- CreateUser of mongo.go: call InsertOne with the context and the
user, discard the result, and on a non-nil error wrap it under
ErrInsertingUser; otherwise return nil. -/
def MongoRepo.CreateUser (m : MongoRepo) (ctx : Context) (user : User) :
    Option GoError :=
  match (m.mongoCaller ctx (Document.userPtr user) []).2 with
  | some err => some (GoError.wrapped GoError.errInsertingUser err.msg)
  | none => none

end Mongo

namespace Entity

/-- Model of uuid.UUID, kept abstract as its canonical textual form. -/
structure UUID where
  val : String
deriving DecidableEq, Repr

/-- Model of mail.Address from net/mail: a display name and an
address. -/
structure MailAddress where
  name : String
  address : String
deriving DecidableEq, Repr

/-- The UserParams struct of entity/user.go. -/
structure UserParams where
  ID : String
  Username : String
  Email : String
deriving DecidableEq, Repr

/-- The User entity of entity/user.go with its three unexported
fields. -/
structure User where
  id : UUID
  username : String
  email : MailAddress
deriving DecidableEq, Repr

/-- The ID accessor of the user entity. -/
def User.ID (u : User) : UUID := u.id

/-- The Username accessor of the user entity. -/
def User.Username (u : User) : String := u.username

/-- The Email accessor of the user entity. -/
def User.Email (u : User) : MailAddress := u.email

/-- NewUser of entity/user.go, parameterised by the two outside
library parsers it calls, uuid.Parse and mail.ParseAddress, each
modelled as a function returning either a parsed value or an error
message: parse the ID and wrap a failure under ErrInvalidUserID,
parse the email and wrap a failure under ErrInvalidEmail, reject an
empty username under ErrInvalidUsername, otherwise build the user
from the parsed values. A Go pair of a nullable pointer and an error
becomes an Except value. -/
def NewUser (uuidParse : String → Except String UUID)
    (parseAddress : String → Except String MailAddress)
    (params : UserParams) : Except Mongo.GoError User :=
  match uuidParse params.ID with
  | .error e => .error (Mongo.GoError.wrapped Mongo.GoError.errInvalidUserID e)
  | .ok userID =>
    match parseAddress params.Email with
    | .error e => .error (Mongo.GoError.wrapped Mongo.GoError.errInvalidEmail e)
    | .ok emailAddress =>
      if params.Username = "" then
        .error (Mongo.GoError.wrapped Mongo.GoError.errInvalidUsername
          "username cannot be empty")
      else
        .ok { id := userID, username := params.Username, email := emailAddress }

end Entity

/-- The single condition on the document that decides which of the two
canned outcomes the mock returns: the document is not a User pointer,
or its Email field is the sentinel. -/
def insertFails (doc : Mongo.Document) : Bool :=
  !doc.isUser || Mongo.docEmailIsSentinel doc

/-- A concrete context value for concrete evaluations. -/
def ctx0 : Mongo.Context := { token := 0 }

/-- The concrete user of the passing test TestMongoRepo_CreateUser. -/
def johnUser : Mongo.User :=
  { ID := { hex := "64ee0123456789abcdef0123" }, Name := "John",
    Email := "john@example.com", Password := "password" }

/-- The concrete user of the failing-path test
TestMongoRepo_CreateUserError, whose email is the sentinel. -/
def sentinelUser : Mongo.User :=
  { ID := { hex := "64ee0123456789abcdef0123" }, Name := "John",
    Email := "error@error.com", Password := "password" }

/-- A concrete MongoCaller implementation that returns both a result
and an error, for concrete evaluations. -/
def callerBoom : Mongo.MongoCaller := fun _ _ _ =>
  (some { InsertedID := { hex := "ignored" } },
    some (Mongo.GoError.external "boom"))

/-- A concrete stand-in for uuid.Parse accepting a single fixed
identifier, for concrete evaluations. -/
def uuidParseToy : String → Except String Entity.UUID := fun s =>
  if s = "11111111-1111-1111-1111-111111111111" then
    Except.ok { val := s }
  else
    Except.error "invalid UUID length"

/-- A concrete stand-in for mail.ParseAddress accepting a single fixed
address, for concrete evaluations. -/
def parseAddressToy : String → Except String Entity.MailAddress := fun s =>
  if s = "john@example.com" then
    Except.ok { name := "", address := s }
  else
    Except.error "mail: missing at sign in addr-spec"

/-- Any string obtained by appending something on the left of the
needle contains the needle. -/
theorem strContains_append_left (pre s : String) :
    Mongo.strContains (pre ++ s) s := by
  unfold Mongo.strContains
  have h : List.IsSuffix s.data (pre ++ s).data := by
    have hd : (pre ++ s).data = pre.data ++ s.data := by
      simp [String.data_append]
    rw [hd]
    exact List.suffix_append pre.data s.data
  exact List.IsSuffix.isInfix h

/-- errors.Is finds an error in itself. -/
theorem errorsIs_self (e : Mongo.GoError) : Mongo.errorsIs e e = true := by
  cases e <;> (rw [Mongo.errorsIs]; simp)
  all_goals exact fun b m h => Mongo.GoError.noConfusion h

/-- Wrapping an error under a sentinel makes errors.Is find the
sentinel. -/
theorem errorsIs_wrapped_base (base : Mongo.GoError) (m : String) :
    Mongo.errorsIs (Mongo.GoError.wrapped base m) base = true := by
  rw [Mongo.errorsIs]
  show (Mongo.GoError.wrapped base m == base || Mongo.errorsIs base base) = true
  rw [errorsIs_self]
  simp

/-- Claim C1, as stated, fails on a document that is not a User
pointer: the mock returns the canned error although the document has
no Email field equal to the sentinel, so the stated equivalence is
false at this input. -/
theorem insertOne_error_iff_sentinel_cex :
    ¬ (Mongo.MockMongo.InsertOne {} ctx0 (Mongo.Document.other "a plain int") [] =
          (none, some Mongo.GoError.errInsertingUser) ↔
        Mongo.docEmailIsSentinel (Mongo.Document.other "a plain int") = true) :=
  fun h => absurd (h.mp rfl) (by decide)

/-- Claim C1 (amended): InsertOne returns the canned error
ErrInsertingUser with a nil result exactly when the document has an
Email field equal to the sentinel email or is not a User pointer at
all. -/
theorem insertOne_error_iff_sentinel_or_not_user (ctx : Mongo.Context)
    (opts : List Mongo.InsertOneOptions) (doc : Mongo.Document) :
    Mongo.MockMongo.InsertOne {} ctx doc opts =
        (none, some Mongo.GoError.errInsertingUser) ↔
      (Mongo.docEmailIsSentinel doc = true ∨ doc.isUser = false) := by
  cases doc with
  | other d =>
    simp [Mongo.MockMongo.InsertOne, Mongo.docEmailIsSentinel,
      Mongo.Document.isUser]
  | userPtr u =>
    by_cases h : u.Email = Mongo.emailWitchTriggersError
    · simp [Mongo.MockMongo.InsertOne, Mongo.docEmailIsSentinel,
        Mongo.Document.isUser, h]
    · simp [Mongo.MockMongo.InsertOne, Mongo.docEmailIsSentinel,
        Mongo.Document.isUser, h]

/-- Claim C2: on a User-pointer document whose Email is not the
sentinel, InsertOne returns a result carrying the ID of the document
and a nil error. -/
theorem insertOne_success (ctx : Mongo.Context)
    (opts : List Mongo.InsertOneOptions) (u : Mongo.User)
    (h : u.Email ≠ Mongo.emailWitchTriggersError) :
    Mongo.MockMongo.InsertOne {} ctx (Mongo.Document.userPtr u) opts =
      (some { InsertedID := u.ID }, none) := by
  simp [Mongo.MockMongo.InsertOne, h]

/-- Claim C2 witness: the concrete user of the passing test. -/
theorem insertOne_success_witness :
    johnUser.Email ≠ Mongo.emailWitchTriggersError ∧
    Mongo.MockMongo.InsertOne {} ctx0 (Mongo.Document.userPtr johnUser) [] =
      (some { InsertedID := johnUser.ID }, none) :=
  ⟨by decide, insertOne_success ctx0 [] johnUser (by decide)⟩

/-- Claim C3: on the mock-backed repository, CreateUser returns a nil
error on every user whose Email is not the sentinel, and on the
sentinel email it returns a non-nil error in which errors.Is finds
ErrInsertingUser. -/
theorem createUser_mock_spec (ctx : Mongo.Context) (u : Mongo.User) :
    (u.Email ≠ Mongo.emailWitchTriggersError →
      Mongo.MongoRepo.CreateUser Mongo.NewMockMongo ctx u = none) ∧
    (u.Email = Mongo.emailWitchTriggersError →
      ∃ err, Mongo.MongoRepo.CreateUser Mongo.NewMockMongo ctx u = some err ∧
        Mongo.errorsIs err Mongo.GoError.errInsertingUser = true) := by
  constructor
  · intro h
    simp [Mongo.MongoRepo.CreateUser, Mongo.NewMockMongo,
      Mongo.MockMongo.InsertOne, h]
  · intro h
    refine ⟨Mongo.GoError.wrapped Mongo.GoError.errInsertingUser
      (Mongo.GoError.msg Mongo.GoError.errInsertingUser), ?_,
      errorsIs_wrapped_base _ _⟩
    simp [Mongo.MongoRepo.CreateUser, Mongo.NewMockMongo,
      Mongo.MockMongo.InsertOne, h]

/-- Claim C3 witness: the concrete sentinel user of the failing-path
test. -/
theorem createUser_mock_spec_witness :
    ∃ err, Mongo.MongoRepo.CreateUser Mongo.NewMockMongo ctx0 sentinelUser =
        some err ∧
      Mongo.errorsIs err Mongo.GoError.errInsertingUser = true :=
  (createUser_mock_spec ctx0 sentinelUser).2 rfl

/-- Claim C4: the mock insert has exactly two canned outcomes, the
canned error or a result carrying the ID of the User-pointer
document, and which one occurs is decided by the single condition
insertFails on the document alone. -/
theorem insertOne_single_branch (ctx : Mongo.Context)
    (opts : List Mongo.InsertOneOptions) (doc : Mongo.Document) :
    (Mongo.MockMongo.InsertOne {} ctx doc opts =
        (none, some Mongo.GoError.errInsertingUser) ∨
      (∃ u, doc = Mongo.Document.userPtr u ∧
        Mongo.MockMongo.InsertOne {} ctx doc opts =
          (some { InsertedID := u.ID }, none))) ∧
    (Mongo.MockMongo.InsertOne {} ctx doc opts =
        (none, some Mongo.GoError.errInsertingUser) ↔
      insertFails doc = true) := by
  cases doc with
  | other d =>
    refine ⟨Or.inl rfl, ?_⟩
    simp [Mongo.MockMongo.InsertOne, insertFails, Mongo.Document.isUser,
      Mongo.docEmailIsSentinel]
  | userPtr u =>
    by_cases h : u.Email = Mongo.emailWitchTriggersError
    · refine ⟨Or.inl (by simp [Mongo.MockMongo.InsertOne, h]), ?_⟩
      simp [Mongo.MockMongo.InsertOne, insertFails, Mongo.Document.isUser,
        Mongo.docEmailIsSentinel, h]
    · refine ⟨Or.inr ⟨u, rfl, by simp [Mongo.MockMongo.InsertOne, h]⟩, ?_⟩
      simp [Mongo.MockMongo.InsertOne, insertFails, Mongo.Document.isUser,
        Mongo.docEmailIsSentinel, h]

/-- Claim C5: neither the mock insert nor CreateUser on the
mock-backed repository looks at the context or the options, so two
calls on the same document under different contexts and different
option lists return the same result and the same error. -/
theorem insertOne_no_ctx_dependence (ctx1 ctx2 : Mongo.Context)
    (opts1 opts2 : List Mongo.InsertOneOptions) (doc : Mongo.Document)
    (u : Mongo.User) :
    Mongo.MockMongo.InsertOne {} ctx1 doc opts1 =
      Mongo.MockMongo.InsertOne {} ctx2 doc opts2 ∧
    Mongo.MongoRepo.CreateUser Mongo.NewMockMongo ctx1 u =
      Mongo.MongoRepo.CreateUser Mongo.NewMockMongo ctx2 u :=
  ⟨rfl, rfl⟩

/-- Claim C6: the illustrative User record has an ID, a Name and an
Email field, and together with the Password field they determine the
whole record. -/
theorem user_struct_fields (i : Mongo.ObjectID) (n e p : String)
    (u : Mongo.User) :
    (Mongo.User.mk i n e p).ID = i ∧ (Mongo.User.mk i n e p).Name = n ∧
    (Mongo.User.mk i n e p).Email = e ∧
    u = { ID := u.ID, Name := u.Name, Email := u.Email,
          Password := u.Password } :=
  ⟨rfl, rfl, rfl, rfl⟩

/-- Claim C7: against any MongoCaller implementation, CreateUser
returns nil exactly when InsertOne returned a nil error; on a non-nil
error it returns a non-nil error in which errors.Is finds
ErrInsertingUser and whose message contains the message of the inner
error; and the InsertOneResult value is discarded, since any two
callers agreeing on the error component give the same CreateUser
outcome. -/
theorem createUser_any_caller (caller : Mongo.MongoCaller)
    (ctx : Mongo.Context) (u : Mongo.User) :
    (Mongo.MongoRepo.CreateUser { mongoCaller := caller } ctx u = none ↔
      (caller ctx (Mongo.Document.userPtr u) []).2 = none) ∧
    (∀ e, (caller ctx (Mongo.Document.userPtr u) []).2 = some e →
      ∃ err,
        Mongo.MongoRepo.CreateUser { mongoCaller := caller } ctx u =
          some err ∧
        Mongo.errorsIs err Mongo.GoError.errInsertingUser = true ∧
        Mongo.strContains (Mongo.GoError.msg err) (Mongo.GoError.msg e)) ∧
    (∀ caller2 : Mongo.MongoCaller,
      (caller2 ctx (Mongo.Document.userPtr u) []).2 =
        (caller ctx (Mongo.Document.userPtr u) []).2 →
      Mongo.MongoRepo.CreateUser { mongoCaller := caller2 } ctx u =
        Mongo.MongoRepo.CreateUser { mongoCaller := caller } ctx u) := by
  refine ⟨?_, ?_, ?_⟩
  · cases hc : (caller ctx (Mongo.Document.userPtr u) []).2 with
    | none => simp [Mongo.MongoRepo.CreateUser, hc]
    | some e => simp [Mongo.MongoRepo.CreateUser, hc]
  · intro e he
    refine ⟨Mongo.GoError.wrapped Mongo.GoError.errInsertingUser
      (Mongo.GoError.msg e), ?_, errorsIs_wrapped_base _ _, ?_⟩
    · simp [Mongo.MongoRepo.CreateUser, he]
    · have hm : Mongo.GoError.msg (Mongo.GoError.wrapped
          Mongo.GoError.errInsertingUser (Mongo.GoError.msg e)) =
          (Mongo.GoError.msg Mongo.GoError.errInsertingUser ++ ": ") ++
            Mongo.GoError.msg e := rfl
      rw [hm]
      exact strContains_append_left _ _
  · intro caller2 h2
    cases hc : (caller ctx (Mongo.Document.userPtr u) []).2 with
    | none =>
      rw [hc] at h2
      simp [Mongo.MongoRepo.CreateUser, hc, h2]
    | some e =>
      rw [hc] at h2
      simp [Mongo.MongoRepo.CreateUser, hc, h2]

/-- Claim C7 witness: a concrete caller returning both a result and an
error shows the error path concretely. -/
theorem createUser_any_caller_witness :
    ∃ err,
      Mongo.MongoRepo.CreateUser { mongoCaller := callerBoom } ctx0 johnUser =
        some err ∧
      Mongo.errorsIs err Mongo.GoError.errInsertingUser = true ∧
      Mongo.strContains (Mongo.GoError.msg err)
        (Mongo.GoError.msg (Mongo.GoError.external "boom")) :=
  (createUser_any_caller callerBoom ctx0 johnUser).2.1
    (Mongo.GoError.external "boom") rfl

/-- Claim C8: every document that is not a User pointer, whatever it
carries, makes the mock insert return a nil result and the canned
error. -/
theorem insertOne_non_user_doc (ctx : Mongo.Context)
    (opts : List Mongo.InsertOneOptions) (d : String) :
    Mongo.MockMongo.InsertOne {} ctx (Mongo.Document.other d) opts =
      (none, some Mongo.GoError.errInsertingUser) :=
  rfl

/-- Claim C9: for any parsers standing in for uuid.Parse and
mail.ParseAddress, NewUser succeeds exactly when the ID parses, the
email parses and the username is non-empty; each failure wraps the
sentinel of the first failing check in the order ID, Email, Username;
and on success the accessors return the parsed UUID, the given
username and the parsed address. -/
theorem newUser_spec (up : String → Except String Entity.UUID)
    (pa : String → Except String Entity.MailAddress)
    (params : Entity.UserParams) :
    ((∃ u, Entity.NewUser up pa params = Except.ok u) ↔
      ((∃ x, up params.ID = Except.ok x) ∧
        (∃ a, pa params.Email = Except.ok a) ∧ params.Username ≠ "")) ∧
    (∀ e, up params.ID = Except.error e →
      Entity.NewUser up pa params =
        Except.error (Mongo.GoError.wrapped Mongo.GoError.errInvalidUserID e)) ∧
    (∀ x e, up params.ID = Except.ok x → pa params.Email = Except.error e →
      Entity.NewUser up pa params =
        Except.error (Mongo.GoError.wrapped Mongo.GoError.errInvalidEmail e)) ∧
    (∀ x a, up params.ID = Except.ok x → pa params.Email = Except.ok a →
      params.Username = "" →
      Entity.NewUser up pa params =
        Except.error (Mongo.GoError.wrapped Mongo.GoError.errInvalidUsername
          "username cannot be empty")) ∧
    (∀ x a, up params.ID = Except.ok x → pa params.Email = Except.ok a →
      params.Username ≠ "" →
      ∃ u, Entity.NewUser up pa params = Except.ok u ∧ u.ID = x ∧
        u.Username = params.Username ∧ u.Email = a) := by
  refine ⟨?_, ?_, ?_, ?_, ?_⟩
  · constructor
    · rintro ⟨u, hu⟩
      cases hid : up params.ID with
      | error e => simp [Entity.NewUser, hid] at hu
      | ok x =>
        cases hem : pa params.Email with
        | error e => simp [Entity.NewUser, hid, hem] at hu
        | ok a =>
          by_cases hn : params.Username = ""
          · simp [Entity.NewUser, hid, hem, hn] at hu
          · exact ⟨⟨x, rfl⟩, ⟨a, rfl⟩, hn⟩
    · rintro ⟨⟨x, hx⟩, ⟨a, ha⟩, hn⟩
      refine ⟨{ id := x, username := params.Username, email := a }, ?_⟩
      simp [Entity.NewUser, hx, ha, hn]
  · intro e he
    simp [Entity.NewUser, he]
  · intro x e hx he
    simp [Entity.NewUser, hx, he]
  · intro x a hx ha hn
    simp [Entity.NewUser, hx, ha, hn]
  · intro x a hx ha hn
    refine ⟨{ id := x, username := params.Username, email := a }, ?_, rfl, rfl, rfl⟩
    simp [Entity.NewUser, hx, ha, hn]

/-- Claim C9 witness: with concrete toy parsers, a concrete parameter
record on the success path yields a user whose accessors return the
parsed values. -/
theorem newUser_spec_witness :
    ∃ u, Entity.NewUser uuidParseToy parseAddressToy
        { ID := "11111111-1111-1111-1111-111111111111", Username := "john",
          Email := "john@example.com" } = Except.ok u ∧
      u.ID = { val := "11111111-1111-1111-1111-111111111111" } ∧
      u.Username = "john" ∧
      u.Email = { name := "", address := "john@example.com" } :=
  (newUser_spec uuidParseToy parseAddressToy
      { ID := "11111111-1111-1111-1111-111111111111", Username := "john",
        Email := "john@example.com" }).2.2.2.2
    { val := "11111111-1111-1111-1111-111111111111" }
    { name := "", address := "john@example.com" }
    rfl rfl (by decide)
